import Mathlib

/-!
Verification development for the Study Helper Crew repository
(`app_simple.py`, the Streamlit web entry point, and `main.py`, the
CrewAI command-line entry point).

The repository is a sequential three-stage text pipeline
(Reader, Explainer, Quiz) driven by an external text-generation model.
The external model is embedded as an oracle
`gen : Nat -> String -> Except String String` mapping the index of the
outbound call and the prompt string to either generated text (`Except.ok`)
or a raised exception carrying a message (`Except.error`).  All stateful
behaviour (Streamlit session state, displayed outcomes, the sequence of
model invocations) is made explicit in the returned values; the list of
`(stage, handed input)` pairs records which stages invoked the model and
with what input, in order.
-/

namespace StudyHelper

/-- The three pipeline stages (Reader, Explainer, Quiz). -/
inductive Stage where
  | reader
  | explainer
  | quiz
deriving DecidableEq

/-- Whitespace characters removed by Python `str.strip()` (the ASCII
whitespace set; rarer Unicode space characters that Python also strips are
not modelled, which only narrows the set of inputs the theorems here
quantify over). -/
def isPyWhitespace (c : Char) : Bool :=
  c = ' ' || c = '\t' || c = '\n' || c = '\r' || c = '\x0b' || c = '\x0c'

/-- Python `s.strip()`: remove leading and trailing whitespace. -/
def pyStrip (s : String) : String :=
  String.mk (((s.data.dropWhile isPyWhitespace).reverse.dropWhile isPyWhitespace).reverse)

/-! ### app_simple.py — prompt templates (the f-strings of
`run_reader_agent`, `run_explainer_agent`, `run_quiz_agent`,
`app_simple.py` lines 74-86, 97-110, 121-139).  Each f-string is a fixed
literal, the stage input interpolated once, and a fixed trailing literal. -/

/-- Prompt of the Reader agent, `app_simple.py` lines 74-86. -/
def readerPrompt (text_input : String) : String :=
  "\n    You are a Text Reader and Summarizer. Your job is to:\n    1. Read the input text carefully\n    2. Identify the main topics and concepts\n    3. Extract the most important key points\n    4. Organize them in a clear, structured way\n    5. Focus on the most relevant information for learning\n    \n    Text to analyze:\n    " ++ text_input ++ "\n    \n    Please provide a well-organized summary of the key points from the text, structured for easy understanding.\n    "

/-- Prompt of the Explainer agent, `app_simple.py` lines 97-110. -/
def explainerPrompt (reader_output : String) : String :=
  "\n    You are a Concept Explainer. Your job is to:\n    1. Take the key points and explain them in simple, easy-to-understand terms\n    2. Use simple, clear language\n    3. Include analogies or examples where helpful\n    4. Break down complex concepts into smaller parts\n    5. Make connections between different ideas\n    6. Help students truly understand the material\n    \n    Key points to explain:\n    " ++ reader_output ++ "\n    \n    Please provide clear, simple explanations of the key concepts that help students understand the material.\n    "

/-- Prompt of the Quiz agent, `app_simple.py` lines 121-139. -/
def quizPrompt (explainer_output : String) : String :=
  "\n    You are a Quiz Generator. Your job is to:\n    1. Review the explanations and create 3-5 high-quality practice questions\n    2. Include both multiple choice and short answer questions\n    3. Test different levels of understanding\n    4. Make questions clear and unambiguous\n    5. Help students practice and learn\n    \n    Explanations to create questions from:\n    " ++ explainer_output ++ "\n    \n    For each question, provide:\n    - The question text\n    - Multiple choice options (if applicable)\n    - The correct answer\n    - A brief explanation of why the answer is correct\n    \n    Please create 3-5 well-crafted practice questions with answers and explanations.\n    "

/-- The prompt builder of the web entry point as one function of the
stage identifier and the stage input, as in spec section 4.1. -/
def buildStagePrompt : Stage → String → String
  | Stage.reader, x => readerPrompt x
  | Stage.explainer, x => explainerPrompt x
  | Stage.quiz, x => quizPrompt x

/-- The fixed template of each stage's prompt, split at the single
interpolation slot: the part before the stage input and the part after it
(transcribed from the same f-strings). -/
def promptParts : Stage → String × String
  | Stage.reader =>
      ("\n    You are a Text Reader and Summarizer. Your job is to:\n    1. Read the input text carefully\n    2. Identify the main topics and concepts\n    3. Extract the most important key points\n    4. Organize them in a clear, structured way\n    5. Focus on the most relevant information for learning\n    \n    Text to analyze:\n    ",
       "\n    \n    Please provide a well-organized summary of the key points from the text, structured for easy understanding.\n    ")
  | Stage.explainer =>
      ("\n    You are a Concept Explainer. Your job is to:\n    1. Take the key points and explain them in simple, easy-to-understand terms\n    2. Use simple, clear language\n    3. Include analogies or examples where helpful\n    4. Break down complex concepts into smaller parts\n    5. Make connections between different ideas\n    6. Help students truly understand the material\n    \n    Key points to explain:\n    ",
       "\n    \n    Please provide clear, simple explanations of the key concepts that help students understand the material.\n    ")
  | Stage.quiz =>
      ("\n    You are a Quiz Generator. Your job is to:\n    1. Review the explanations and create 3-5 high-quality practice questions\n    2. Include both multiple choice and short answer questions\n    3. Test different levels of understanding\n    4. Make questions clear and unambiguous\n    5. Help students practice and learn\n    \n    Explanations to create questions from:\n    ",
       "\n    \n    For each question, provide:\n    - The question text\n    - Multiple choice options (if applicable)\n    - The correct answer\n    - A brief explanation of why the answer is correct\n    \n    Please create 3-5 well-crafted practice questions with answers and explanations.\n    ")

/-! ### app_simple.py — stage runners and orchestrator -/

/-- `initialize_gemini` (`app_simple.py` lines 58-70): returns `none` when
the `GEMINI_API_KEY` environment variable is absent, or when configuring
the client raises (modelled by the flag `configOk`); otherwise the
configured model handle. -/
def init_gemini (env : Option String) (configOk : Bool) : Option Unit :=
  match env with
  | none => none
  | some _ => if configOk then some () else none

/-- `run_reader_agent` (`app_simple.py` lines 72-93): builds the Reader
prompt, calls the model once; an exception from the call is caught inside
the function, which then returns `None` (here `none`). -/
def run_reader_agent (gen : String → Except String String) (text_input : String) :
    Option String :=
  match gen (readerPrompt text_input) with
  | Except.ok r => some r
  | Except.error _ => none

/-- `run_explainer_agent` (`app_simple.py` lines 95-117). -/
def run_explainer_agent (gen : String → Except String String) (reader_output : String) :
    Option String :=
  match gen (explainerPrompt reader_output) with
  | Except.ok r => some r
  | Except.error _ => none

/-- `run_quiz_agent` (`app_simple.py` lines 119-146). -/
def run_quiz_agent (gen : String → Except String String) (explainer_output : String) :
    Option String :=
  match gen (quizPrompt explainer_output) with
  | Except.ok r => some r
  | Except.error _ => none

/-- The three Streamlit session-state slots `reader_result`,
`explainer_result`, `quiz_result` (`app_simple.py` lines 257-259);
`none` means the key is not set. -/
structure WebSession where
  reader_result : Option String
  explainer_result : Option String
  quiz_result : Option String
deriving DecidableEq

/-- The user-visible way a press of the Process button ends
(`app_simple.py` lines 213-265): the empty-input warning, the missing-key
error, a silent stop after `initialize_gemini` returned `None`, the
per-stage failure messages, or the success message. -/
inductive WebOutcome where
  | emptyWarning
  | missingKey
  | initFailed
  | readerFailed
  | explainerFailed
  | quizFailed
  | complete
deriving DecidableEq

/-- Result of one press of the Process button: the outcome shown, the
ordered list of stages that invoked the model paired with the input text
handed to each stage, and the session state afterwards. -/
structure WebRun where
  outcome : WebOutcome
  trace : List (Stage × String)
  session : WebSession
deriving DecidableEq

/-- The Process-button branch of `main` in `app_simple.py` (lines
213-265): reject blank input, then check the credential, then initialize
the client, then run Reader, Explainer, Quiz in order, each only if the
previous returned a result; session state is assigned only in the
innermost all-successful branch. -/
def webButtonHandler (gen : Nat → String → Except String String)
    (text_input : String) (env : Option String) (configOk : Bool)
    (sess : WebSession) : WebRun :=
  if pyStrip text_input = "" then ⟨WebOutcome.emptyWarning, [], sess⟩
  else
    match env with
    | none => ⟨WebOutcome.missingKey, [], sess⟩
    | some _ =>
      match init_gemini env configOk with
      | none => ⟨WebOutcome.initFailed, [], sess⟩
      | some _ =>
        match run_reader_agent (gen 0) text_input with
        | none => ⟨WebOutcome.readerFailed, [(Stage.reader, text_input)], sess⟩
        | some reader_result =>
          match run_explainer_agent (gen 1) reader_result with
          | none =>
              ⟨WebOutcome.explainerFailed,
               [(Stage.reader, text_input), (Stage.explainer, reader_result)], sess⟩
          | some explainer_result =>
            match run_quiz_agent (gen 2) explainer_result with
            | none =>
                ⟨WebOutcome.quizFailed,
                 [(Stage.reader, text_input), (Stage.explainer, reader_result),
                  (Stage.quiz, explainer_result)], sess⟩
            | some quiz_result =>
                ⟨WebOutcome.complete,
                 [(Stage.reader, text_input), (Stage.explainer, reader_result),
                  (Stage.quiz, explainer_result)],
                 ⟨some reader_result, some explainer_result, some quiz_result⟩⟩

/-- The sidebar credential indicator (`app_simple.py` lines 183-188):
`true` renders the configured message, `false` renders the
API-key-not-found error. -/
def sidebar_key_ok (env : Option String) : Bool :=
  env.isSome

/-- The downloadable document `full_result` (`app_simple.py` lines
293-304): the f-string concatenating a title, the three stage headings and
the three stored payloads. -/
def full_result (r e q : String) : String :=
  "\n# Study Helper Crew Analysis\n\n## 📖 Key Points Summary\n" ++ r
    ++ "\n\n## 💡 Simple Explanations\n" ++ e
    ++ "\n\n## ❓ Practice Questions\n" ++ q
    ++ "\n        "

/-- Title line of the exported document. -/
def exportTitle : String := "# Study Helper Crew Analysis"

/-- Heading the exported document places before the Reader payload. -/
def readerHeading : String := "## 📖 Key Points Summary"

/-- Heading the exported document places before the Explainer payload. -/
def explainerHeading : String := "## 💡 Simple Explanations"

/-- Heading the exported document places before the Quiz payload. -/
def quizHeading : String := "## ❓ Practice Questions"

/-! ### main.py — CLI entry point -/

/-- `get_gemini_llm` (`main.py` lines 16-26): raises `ValueError` when the
credential is absent from the environment, otherwise constructs the LLM
client handle (no network call is made by construction). -/
def get_gemini_llm (env : Option String) : Except String Unit :=
  match env with
  | none => Except.error "GEMINI_API_KEY not found in environment variables"
  | some _ => Except.ok ()

/-- Description of the Reader task, the f-string of `create_reader_task`
(`main.py` lines 81-99). -/
def reader_task_description (text_input : String) : String :=
  "\n        Read and analyze the following text carefully:\n        \n        " ++ text_input ++ "\n        \n        Extract and summarize the key points. Focus on:\n        - Main topics and concepts\n        - Important details and facts\n        - Key relationships between ideas\n        - Most relevant information for learning\n        \n        Provide a clear, organized summary of the key points.\n        "

/-- Description of the Explainer task, the f-string of
`create_explainer_task` (`main.py` lines 101-120). -/
def explainer_task_description (reader_output : String) : String :=
  "\n        Take the following key points and explain them in simple, easy-to-understand terms:\n        \n        " ++ reader_output ++ "\n        \n        Your explanation should:\n        - Use simple, clear language\n        - Include analogies or examples where helpful\n        - Break down complex concepts into smaller parts\n        - Make connections between different ideas\n        - Help students truly understand the material\n        \n        Focus on making the content accessible and memorable.\n        "

/-- Description of the Quiz task, the f-string of `create_quiz_task`
(`main.py` lines 122-145). -/
def quiz_task_description (explainer_output : String) : String :=
  "\n        Based on the following explanations, create 3-5 practice questions:\n        \n        " ++ explainer_output ++ "\n        \n        Create questions that:\n        - Test understanding of the main concepts\n        - Include both multiple choice and short answer questions\n        - Cover different levels of difficulty\n        - Are clear and unambiguous\n        - Help students practice and learn\n        \n        For each question, provide:\n        - The question text\n        - Multiple choice options (if applicable)\n        - The correct answer\n        - A brief explanation of why the answer is correct\n        "

/-- The three task descriptions a crew run is wired with. -/
structure CrewTasks where
  readerDesc : String
  explainerDesc : String
  quizDesc : String
deriving DecidableEq

/-- Task wiring of `run_study_helper_crew` (`main.py` lines 152-155): the
Reader task is created from the user text, while the Explainer and Quiz
tasks are created from the empty string (the source comments say the empty
string "Will be updated with reader output" respectively "with explainer
output", but no update ever happens before the crew is executed). -/
def mkCrewTasks (text_input : String) : CrewTasks :=
  ⟨reader_task_description text_input,
   explainer_task_description "",
   quiz_task_description ""⟩

/-- Modelled from the spec: `crewai.Crew.kickoff` with
`Process.sequential` (`main.py` lines 158-166) is external library code
not present in this repository.  Following the spec's account — the
pipeline is pre-wired before execution and the source relies on "implicit
exception propagation from the network call up through the UI layer"
(design notes) — it is modelled as executing the three pre-wired task
descriptions in order through the model client, where a failed model call
raises and the exception propagates out of `kickoff` immediately, skipping
the remaining tasks; on success the returned value is the final task's
output.  The first component records, in order, the stages that invoked
the model and the description each sent. -/
def crewKickoff (gen : Nat → String → Except String String) (tasks : CrewTasks) :
    List (Stage × String) × Except String String :=
  match gen 0 tasks.readerDesc with
  | Except.error e => ([(Stage.reader, tasks.readerDesc)], Except.error e)
  | Except.ok _ =>
    match gen 1 tasks.explainerDesc with
    | Except.error e =>
        ([(Stage.reader, tasks.readerDesc), (Stage.explainer, tasks.explainerDesc)],
         Except.error e)
    | Except.ok _ =>
      match gen 2 tasks.quizDesc with
      | Except.error e =>
          ([(Stage.reader, tasks.readerDesc), (Stage.explainer, tasks.explainerDesc),
            (Stage.quiz, tasks.quizDesc)], Except.error e)
      | Except.ok r3 =>
          ([(Stage.reader, tasks.readerDesc), (Stage.explainer, tasks.explainerDesc),
            (Stage.quiz, tasks.quizDesc)], Except.ok r3)

/-- `run_study_helper_crew` (`main.py` lines 147-168): wires the tasks and
executes the crew; any exception raised by the execution propagates to the
caller (there is no try/except in this function). -/
def run_study_helper_crew (gen : Nat → String → Except String String)
    (text_input : String) : List (Stage × String) × Except String String :=
  crewKickoff gen (mkCrewTasks text_input)

/-- What the CLI `main` prints after reading the input (`main.py` lines
188-205): the no-text usage message, the printed crew result, or the
error message printed by the `except` clause that catches an exception
propagated out of `run_study_helper_crew`. -/
inductive CliOutcome where
  | noText
  | success (printed : String)
  | errorCaught (msg : String)
deriving DecidableEq

/-- The input-reading loop of the CLI `main` (`main.py` lines 179-184):
reads a line; stops (without appending it) when the line is empty, at
least one line was collected, and the last collected line is empty;
otherwise appends and continues.  The remaining stream is explicit;
`none` means the stream was exhausted while the loop was still asking for
input. -/
def cliCollect : List String → List String → Option (List String)
  | [], _ => none
  | l :: rest, acc =>
    if l = "" ∧ acc ≠ [] ∧ acc.getLast? = some "" then some acc
    else cliCollect rest (acc ++ [l])

/-- The part of the CLI `main` after the text is collected and stripped
(`main.py` lines 186-205): reject empty text, otherwise invoke
`run_study_helper_crew` once inside try/except, printing the result on
success and the caught exception's message on failure. -/
def cliProcessText (gen : Nat → String → Except String String)
    (text_input : String) : CliOutcome × List (Stage × String) :=
  if text_input = "" then (CliOutcome.noText, [])
  else
    match run_study_helper_crew gen text_input with
    | (trace, Except.ok r) => (CliOutcome.success r, trace)
    | (trace, Except.error e) => (CliOutcome.errorCaught e, trace)

/-- The CLI `main` (`main.py` lines 170-205) over an explicit stdin
stream: collect lines, join with newlines, strip, then process. -/
def cliMain (gen : Nat → String → Except String String) (stream : List String) :
    Option (CliOutcome × List (Stage × String)) :=
  match cliCollect stream [] with
  | none => none
  | some lines => some (cliProcessText gen (pyStrip (String.intercalate "\n" lines)))

/-- How starting the CLI process ends: the module-level
`llm = get_gemini_llm()` (`main.py` line 29) raising before `main` runs,
or `main` running. -/
inductive CliStart where
  | configError (msg : String)
  | ran (result : Option (CliOutcome × List (Stage × String)))
deriving DecidableEq

/-- The CLI process from interpreter start: module initialization
constructs the LLM handle (raising on a missing credential, before `main`
and before any model call), then `main` runs. -/
def cliEntry (env : Option String) (gen : Nat → String → Except String String)
    (stream : List String) : CliStart :=
  match get_gemini_llm env with
  | Except.error e => CliStart.configError e
  | Except.ok _ => CliStart.ran (cliMain gen stream)

/-- No two consecutive collected lines are both empty. -/
def noDoubleBlank : List String → Bool
  | [] => true
  | [_] => true
  | a :: b :: rest => !(a = "" && b = "") && noDoubleBlank (b :: rest)

/-- Model oracle that fails every call with message "boom". -/
def genAllFail : Nat → String → Except String String :=
  fun _ _ => Except.error "boom"

/-- Model oracle whose first call succeeds with payload "KP" and whose
later calls fail with message "boom". -/
def genOkThenFail : Nat → String → Except String String :=
  fun i _ => if i = 0 then Except.ok "KP" else Except.error "boom"

/-- Model oracle that answers every call with payload "out". -/
def genAllOk : Nat → String → Except String String :=
  fun _ _ => Except.ok "out"

/-! ### Helper lemmas -/

/-- Invariant of the CLI reading loop: consuming a block of lines with no
two consecutive blanks, whose last line is blank and whose first line does
not continue a blank run of the accumulator, collects exactly that block
and stops at the following blank line. -/
theorem cliCollect_go (ls : List String) (rest : List String) (acc : List String)
    (hb : ¬(ls.head? = some "" ∧ acc.getLast? = some ""))
    (hch : noDoubleBlank ls = true)
    (hend : (acc ++ ls).getLast? = some "") :
    cliCollect (ls ++ "" :: rest) acc = some (acc ++ ls) := by
  induction ls generalizing acc with
  | nil =>
    rw [List.append_nil] at hend ⊢
    rw [List.nil_append]
    have hne : acc ≠ [] := by
      intro h
      rw [h] at hend
      simp at hend
    unfold cliCollect
    rw [if_pos ⟨rfl, hne, hend⟩]
  | cons l ls ih =>
    have hcond : ¬(l = "" ∧ acc ≠ [] ∧ acc.getLast? = some "") := by
      rintro ⟨h1, _, h3⟩
      exact hb ⟨by simp [h1], h3⟩
    show cliCollect (l :: (ls ++ "" :: rest)) acc = some (acc ++ l :: ls)
    unfold cliCollect
    rw [if_neg hcond]
    have hb' : ¬(ls.head? = some "" ∧ (acc ++ [l]).getLast? = some "") := by
      rintro ⟨hh, hl⟩
      rw [List.getLast?_concat] at hl
      have hl' : l = "" := by simpa using hl
      cases ls with
      | nil => simp at hh
      | cons b ls' =>
        have hb' : b = "" := by simpa using hh
        rw [hl', hb'] at hch
        simp [noDoubleBlank] at hch
    have hch' : noDoubleBlank ls = true := by
      cases ls with
      | nil => rfl
      | cons b ls' =>
        have := hch
        simp only [noDoubleBlank, Bool.and_eq_true] at this
        exact this.2
    have hend' : ((acc ++ [l]) ++ ls).getLast? = some "" := by
      rw [List.append_assoc, List.singleton_append]
      exact hend
    have := ih (acc ++ [l]) hb' hch' hend'
    rw [this, List.append_assoc, List.singleton_append]

/-- Specialization of the loop invariant to the empty initial accumulator:
a block of collected lines ending in a blank line, with no interior run of
two blanks, followed in the stream by a further blank line, is exactly
what the loop returns; anything after that blank line is never read. -/
theorem cliCollect_double_blank (lines rest : List String)
    (h2 : lines.getLast? = some "")
    (h3 : noDoubleBlank lines = true) :
    cliCollect (lines ++ "" :: rest) [] = some lines := by
  have h := cliCollect_go lines rest []
    (by
      rintro ⟨_, hl⟩
      simp at hl)
    h3
    (by simpa using h2)
  simpa using h

/-! ### Claim theorems -/

/-- C7: for every stage identifier and every input string, including the
empty string, the prompt builder of the web entry point is deterministic —
the same call made twice yields byte-identical strings — and every prompt
is the fixed instructional template of the stage with the input
interpolated at the single marked slot (the builder is a pure Lean
function, so it has no side effects, and it imposes no condition on the
input). -/
theorem prompt_build_deterministic_single_slot (s : Stage) (x : String) :
    buildStagePrompt s x = buildStagePrompt s x
  ∧ buildStagePrompt s x = (promptParts s).1 ++ x ++ (promptParts s).2 := by
  refine ⟨rfl, ?_⟩
  cases s <;> rfl

/-- C8: the exported downloadable document is, in order, a title line,
then the Reader heading followed by the Reader payload verbatim, then the
Explainer heading followed by the Explainer payload verbatim, then the
Quiz heading followed by the Quiz payload verbatim. -/
theorem export_document_layout (r e q : String) :
    full_result r e q
      = "\n# Study Helper Crew Analysis\n\n## 📖 Key Points Summary\n" ++ r
          ++ "\n\n## 💡 Simple Explanations\n" ++ e
          ++ "\n\n## ❓ Practice Questions\n" ++ q ++ "\n        "
  ∧ "\n# Study Helper Crew Analysis\n\n## 📖 Key Points Summary\n"
      = "\n" ++ exportTitle ++ "\n\n" ++ readerHeading ++ "\n"
  ∧ "\n\n## 💡 Simple Explanations\n" = "\n\n" ++ explainerHeading ++ "\n"
  ∧ "\n\n## ❓ Practice Questions\n" = "\n\n" ++ quizHeading ++ "\n" :=
  ⟨rfl, rfl, rfl, rfl⟩

/-- C1: evaluation of the CLI crew wiring at the failing input.  In
`main.py` the Explainer and Quiz tasks are created from the empty string
before the crew executes and are never updated, so the input interpolated
into the Explainer stage's task is the empty string and not the Reader
stage's output: at the concrete input the pre-wired Explainer description
equals the template applied to the empty string, and that differs from the
template applied to any non-empty Reader output such as the one shown. -/
theorem cli_explainer_input_prewired_empty :
    (mkCrewTasks "Photosynthesis converts light into chemical energy.").explainerDesc
      = explainer_task_description ""
  ∧ (mkCrewTasks "Photosynthesis converts light into chemical energy.").quizDesc
      = quiz_task_description ""
  ∧ explainer_task_description ""
      ≠ explainer_task_description "KEY POINT: light into chemical energy" := by
  refine ⟨rfl, rfl, ?_⟩
  decide

/-- C3: for every input that is empty or all-whitespace, the web entry
point shows the usage warning, invokes the model zero times and leaves the
session untouched, and the CLI entry point prints the no-text usage
message and invokes the model zero times. -/
theorem blank_input_never_calls_model
    (gen : Nat → String → Except String String) (env : Option String) (configOk : Bool)
    (sess : WebSession) (t : String) (stream lines : List String)
    (hw : pyStrip t = "")
    (hc : cliCollect stream [] = some lines)
    (hcw : pyStrip (String.intercalate "\n" lines) = "") :
    webButtonHandler gen t env configOk sess = ⟨WebOutcome.emptyWarning, [], sess⟩
  ∧ cliMain gen stream = some (CliOutcome.noText, []) := by
  constructor
  · unfold webButtonHandler
    rw [if_pos hw]
  · unfold cliMain
    rw [hc]
    show some (cliProcessText gen (pyStrip (String.intercalate "\n" lines)))
      = some (CliOutcome.noText, [])
    rw [hcw]
    rfl

/-- C3 witness: the all-whitespace web input and a CLI stream collecting
only an empty line are both rejected with zero model calls. -/
theorem blank_input_never_calls_model_check :
    webButtonHandler genAllOk " \n " (some "k") true ⟨none, none, none⟩
      = ⟨WebOutcome.emptyWarning, [], ⟨none, none, none⟩⟩
  ∧ cliMain genAllOk ["", ""] = some (CliOutcome.noText, []) :=
  blank_input_never_calls_model genAllOk (some "k") true ⟨none, none, none⟩
    " \n " ["", ""] [""] (by decide) (by decide) (by decide)

/-- C6: with the credential absent from the environment, the web entry
point's sidebar reports the missing key, the button handler stops with the
missing-key error before any stage and with zero model calls, the client
initializer returns no client, and the CLI process raises the
configuration error at module initialization, before `main`, any stage or
any model call. -/
theorem missing_credential_blocks
    (gen : Nat → String → Except String String) (configOk : Bool)
    (sess : WebSession) (t : String) (stream : List String)
    (h : pyStrip t ≠ "") :
    webButtonHandler gen t none configOk sess = ⟨WebOutcome.missingKey, [], sess⟩
  ∧ sidebar_key_ok none = false
  ∧ init_gemini none configOk = none
  ∧ cliEntry none gen stream
      = CliStart.configError "GEMINI_API_KEY not found in environment variables" := by
  refine ⟨?_, rfl, rfl, rfl⟩
  unfold webButtonHandler
  rw [if_neg h]

/-- C6 witness: the missing-credential behaviour at a concrete non-blank
input and a concrete stream. -/
theorem missing_credential_blocks_check :
    webButtonHandler genAllOk "some study text" none true ⟨none, none, none⟩
      = ⟨WebOutcome.missingKey, [], ⟨none, none, none⟩⟩
  ∧ sidebar_key_ok none = false
  ∧ init_gemini none true = none
  ∧ cliEntry none genAllOk ["x", "", ""]
      = CliStart.configError "GEMINI_API_KEY not found in environment variables" :=
  missing_credential_blocks genAllOk true ⟨none, none, none⟩ "some study text"
    ["x", "", ""] (by decide)

/-- C2: when the Reader stage's model call fails, the web entry point ends
in the Reader-failed state with a trace holding exactly one Reader
invocation (so zero Explainer and zero Quiz invocations) and leaves the
session untouched, and the CLI entry point's crew run records exactly one
Reader invocation, propagates the failure, and the top-level handler ends
with the error caught — in neither entry point is the Explainer or Quiz
stage ever invoked. -/
theorem reader_failure_short_circuits
    (gen : Nat → String → Except String String) (t tc k e ec : String)
    (sess : WebSession)
    (ht : pyStrip t ≠ "")
    (hr : gen 0 (readerPrompt t) = Except.error e)
    (htc : tc ≠ "")
    (hrc : gen 0 (reader_task_description tc) = Except.error ec) :
    webButtonHandler gen t (some k) true sess
      = ⟨WebOutcome.readerFailed, [(Stage.reader, t)], sess⟩
  ∧ run_study_helper_crew gen tc
      = ([(Stage.reader, reader_task_description tc)], Except.error ec)
  ∧ cliProcessText gen tc
      = (CliOutcome.errorCaught ec, [(Stage.reader, reader_task_description tc)]) := by
  refine ⟨?_, ?_, ?_⟩
  · simp [webButtonHandler, ht, init_gemini, run_reader_agent, hr]
  · simp [run_study_helper_crew, crewKickoff, mkCrewTasks, hrc]
  · simp [cliProcessText, htc, run_study_helper_crew, crewKickoff, mkCrewTasks, hrc]

/-- C2 witness: with an always-failing model, both entry points stop after
exactly one Reader invocation. -/
theorem reader_failure_short_circuits_check :
    webButtonHandler genAllFail "web text" (some "k") true ⟨none, none, none⟩
      = ⟨WebOutcome.readerFailed, [(Stage.reader, "web text")], ⟨none, none, none⟩⟩
  ∧ run_study_helper_crew genAllFail "cli text"
      = ([(Stage.reader, reader_task_description "cli text")], Except.error "boom")
  ∧ cliProcessText genAllFail "cli text"
      = (CliOutcome.errorCaught "boom",
         [(Stage.reader, reader_task_description "cli text")]) :=
  reader_failure_short_circuits genAllFail "web text" "cli text" "k" "boom" "boom"
    ⟨none, none, none⟩ (by decide) rfl (by decide) rfl

/-- C5 counterexample: in the web entry point, when the Reader succeeds
(its output is the payload "KP", visible as the input handed to the
Explainer in the trace) and the Explainer's model call fails, the session
state afterwards still has no reader result: the fresh Reader output is
discarded rather than preserved in the returned state. -/
theorem explainer_failure_drops_reader_result :
    (webButtonHandler genOkThenFail "some text" (some "k") true
        ⟨none, none, none⟩).outcome = WebOutcome.explainerFailed
  ∧ (webButtonHandler genOkThenFail "some text" (some "k") true
        ⟨none, none, none⟩).trace
      = [(Stage.reader, "some text"), (Stage.explainer, "KP")]
  ∧ (webButtonHandler genOkThenFail "some text" (some "k") true
        ⟨none, none, none⟩).session.reader_result = none := by
  refine ⟨?_, ?_, ?_⟩ <;> decide

/-- C5 amended: when the Reader succeeds and the Explainer's model call
fails, the web entry point reports the Explainer failure, the trace holds
exactly one Reader and one Explainer invocation and no Quiz invocation,
and the session state is left entirely unchanged — no placeholder output
is fabricated for any stage, and in particular the fresh Reader output is
not stored anywhere. -/
theorem explainer_failure_halts_web
    (gen : Nat → String → Except String String) (t k r e : String) (sess : WebSession)
    (ht : pyStrip t ≠ "")
    (hr : gen 0 (readerPrompt t) = Except.ok r)
    (he : gen 1 (explainerPrompt r) = Except.error e) :
    webButtonHandler gen t (some k) true sess
      = ⟨WebOutcome.explainerFailed,
         [(Stage.reader, t), (Stage.explainer, r)], sess⟩ := by
  simp [webButtonHandler, ht, init_gemini, run_reader_agent, run_explainer_agent, hr, he]

/-- C5 witness: the amended behaviour at a concrete run in which the
Reader returns "KP" and the Explainer call fails. -/
theorem explainer_failure_halts_web_check :
    webButtonHandler genOkThenFail "study text" (some "k") true
        ⟨some "oldR", some "oldE", some "oldQ"⟩
      = ⟨WebOutcome.explainerFailed,
         [(Stage.reader, "study text"), (Stage.explainer, "KP")],
         ⟨some "oldR", some "oldE", some "oldQ"⟩⟩ :=
  explainer_failure_halts_web genOkThenFail "study text" "k" "KP" "boom"
    ⟨some "oldR", some "oldE", some "oldQ"⟩ (by decide) rfl rfl

/-- C4 counterexample: in the CLI entry point a failing model call makes
the orchestrator itself end with a propagated exception — the pair's
second component, the modelled raised exception, crosses the boundary of
`run_study_helper_crew` — and the failure is observed only by the
top-level catch in `main`, which turns it into the error-caught outcome;
the orchestrator never receives an inspectable per-stage result. -/
theorem cli_error_crosses_orchestrator_boundary :
    (run_study_helper_crew genAllFail "x").2 = Except.error "boom"
  ∧ (cliProcessText genAllFail "x").1 = CliOutcome.errorCaught "boom" := by
  refine ⟨rfl, ?_⟩
  decide

/-- C4 amended: in the web entry point every stage runner converts a
model-call failure into an explicit absent result at its own boundary and
the orchestrator proceeds by inspecting that result; in the CLI entry
point the model failure propagates as an exception out of the crew run and
out of `run_study_helper_crew`, and is observed only by the top-level
try/except of `main`, which reports the caught message. -/
theorem failure_result_vs_exception
    (gen : Nat → String → Except String String) (t k e : String) (sess : WebSession) :
    (gen 0 (readerPrompt t) = Except.error e → run_reader_agent (gen 0) t = none)
  ∧ (gen 1 (explainerPrompt t) = Except.error e → run_explainer_agent (gen 1) t = none)
  ∧ (gen 2 (quizPrompt t) = Except.error e → run_quiz_agent (gen 2) t = none)
  ∧ (pyStrip t ≠ "" → run_reader_agent (gen 0) t = none →
        webButtonHandler gen t (some k) true sess
          = ⟨WebOutcome.readerFailed, [(Stage.reader, t)], sess⟩)
  ∧ (t ≠ "" → (run_study_helper_crew gen t).2 = Except.error e →
        (cliProcessText gen t).1 = CliOutcome.errorCaught e) := by
  refine ⟨?_, ?_, ?_, ?_, ?_⟩
  · intro h
    simp [run_reader_agent, h]
  · intro h
    simp [run_explainer_agent, h]
  · intro h
    simp [run_quiz_agent, h]
  · intro ht h
    simp [webButtonHandler, ht, init_gemini, h]
  · intro ht h
    unfold cliProcessText
    rw [if_neg ht]
    rcases hrc : run_study_helper_crew gen t with ⟨tr, res⟩
    rw [hrc] at h
    cases res with
    | ok v => simp at h
    | error e2 =>
      simp at h
      subst h
      simp

/-- C4 witness: with an always-failing model, each web stage runner
returns the absent result, the web orchestrator observes it as the
Reader-failed state, and the CLI run ends with the propagated exception
caught at top level. -/
theorem failure_result_vs_exception_check :
    run_reader_agent (genAllFail 0) "x" = none
  ∧ run_explainer_agent (genAllFail 1) "x" = none
  ∧ run_quiz_agent (genAllFail 2) "x" = none
  ∧ webButtonHandler genAllFail "x" (some "k") true ⟨none, none, none⟩
      = ⟨WebOutcome.readerFailed, [(Stage.reader, "x")], ⟨none, none, none⟩⟩
  ∧ (cliProcessText genAllFail "x").1 = CliOutcome.errorCaught "boom" :=
  ⟨(failure_result_vs_exception genAllFail "x" "k" "boom" ⟨none, none, none⟩).1 rfl,
   (failure_result_vs_exception genAllFail "x" "k" "boom" ⟨none, none, none⟩).2.1 rfl,
   (failure_result_vs_exception genAllFail "x" "k" "boom" ⟨none, none, none⟩).2.2.1 rfl,
   (failure_result_vs_exception genAllFail "x" "k" "boom" ⟨none, none, none⟩).2.2.2.1
     (by decide)
     ((failure_result_vs_exception genAllFail "x" "k" "boom" ⟨none, none, none⟩).1 rfl),
   (failure_result_vs_exception genAllFail "x" "k" "boom" ⟨none, none, none⟩).2.2.2.2
     (by decide) rfl⟩

/-- C9 counterexample: a single blank line does not terminate the CLI
input loop.  On the stream with lines "a", blank, "b", blank, blank the
loop keeps reading past the first blank line, collects "b" as well, and
stops only at the blank line that follows an already-collected blank line;
the collected text is "a", blank line, "b" — not just "a" as
blank-line termination would give. -/
theorem single_blank_line_does_not_end_reading :
    cliCollect ["a", "", "b", "", ""] [] = some ["a", "", "b", ""]
  ∧ some ["a", "", "b", ""] ≠ some ["a"]
  ∧ pyStrip (String.intercalate "\n" ["a", "", "b", ""]) = "a\n\nb" := by
  refine ⟨rfl, by decide, by decide⟩

/-- C9 amended: the CLI entry point reads free text from standard input
terminated by two consecutive blank lines (reading stops at an empty line
only when the previously collected line is also empty, so the first
collected block ending in a blank line and containing no two consecutive
blanks is collected exactly, and nothing after the terminator is read);
the stripped text is then processed, which for non-empty text invokes the
orchestrator exactly once and prints the final stage's payload on success
(or the error message on failure, as in the C4 theorems). -/
theorem cli_reads_until_two_blank_lines
    (gen : Nat → String → Except String String) (lines rest : List String)
    (h2 : lines.getLast? = some "")
    (h3 : noDoubleBlank lines = true) :
    cliMain gen (lines ++ "" :: rest)
      = some (cliProcessText gen (pyStrip (String.intercalate "\n" lines)))
  ∧ (∀ t v tr, t ≠ "" → run_study_helper_crew gen t = (tr, Except.ok v) →
        cliProcessText gen t = (CliOutcome.success v, tr)) := by
  constructor
  · unfold cliMain
    rw [cliCollect_double_blank lines rest h2 h3]
  · intro t v tr ht hok
    unfold cliProcessText
    rw [if_neg ht, hok]

/-- C9 witness: a concrete stream "hello", blank, blank, "junk": the loop
collects exactly "hello" with the first blank, never reads "junk", and the
always-successful model makes the run print the final payload. -/
theorem cli_reads_until_two_blank_lines_check :
    cliMain genAllOk ["hello", "", "", "junk"]
      = some (cliProcessText genAllOk (pyStrip (String.intercalate "\n" ["hello", ""])))
  ∧ cliProcessText genAllOk "hello"
      = (CliOutcome.success "out",
         [(Stage.reader, reader_task_description "hello"),
          (Stage.explainer, explainer_task_description ""),
          (Stage.quiz, quiz_task_description "")]) :=
  ⟨(cli_reads_until_two_blank_lines genAllOk ["hello", ""] ["junk"]
      (by decide) (by decide)).1,
   (cli_reads_until_two_blank_lines genAllOk ["hello", ""] ["junk"]
      (by decide) (by decide)).2 "hello" "out"
     [(Stage.reader, reader_task_description "hello"),
      (Stage.explainer, explainer_task_description ""),
      (Stage.quiz, quiz_task_description "")]
     (by decide) rfl⟩

/-- C10: in the web entry point the three stored session results are
updated all-or-nothing — whenever the run ends in anything other than the
complete outcome the session state afterwards equals the session state
before, so earlier stored results are never partially overwritten, and
when the run completes all three slots hold exactly the three fresh stage
outputs of this invocation. -/
theorem session_update_all_or_nothing
    (gen : Nat → String → Except String String) (t : String) (env : Option String)
    (configOk : Bool) (sess : WebSession) :
    ((webButtonHandler gen t env configOk sess).outcome ≠ WebOutcome.complete →
        (webButtonHandler gen t env configOk sess).session = sess)
  ∧ ((webButtonHandler gen t env configOk sess).outcome = WebOutcome.complete →
        ∃ r e q,
          gen 0 (readerPrompt t) = Except.ok r
          ∧ gen 1 (explainerPrompt r) = Except.ok e
          ∧ gen 2 (quizPrompt e) = Except.ok q
          ∧ (webButtonHandler gen t env configOk sess).session
              = ⟨some r, some e, some q⟩) := by
  by_cases hw : pyStrip t = ""
  · refine ⟨fun _ => by simp [webButtonHandler, hw], fun hc => absurd hc ?_⟩
    simp [webButtonHandler, hw]
  · cases env with
    | none =>
      refine ⟨fun _ => by simp [webButtonHandler, hw], fun hc => absurd hc ?_⟩
      simp [webButtonHandler, hw]
    | some k =>
      cases hcfg : init_gemini (some k) configOk with
      | none =>
        refine ⟨fun _ => by simp [webButtonHandler, hw, hcfg], fun hc => absurd hc ?_⟩
        simp [webButtonHandler, hw, hcfg]
      | some u =>
        cases h0 : gen 0 (readerPrompt t) with
        | error e0 =>
          refine ⟨fun _ => by
              simp [webButtonHandler, hw, hcfg, run_reader_agent, h0],
            fun hc => absurd hc ?_⟩
          simp [webButtonHandler, hw, hcfg, run_reader_agent, h0]
        | ok r =>
          cases h1 : gen 1 (explainerPrompt r) with
          | error e1 =>
            refine ⟨fun _ => by
                simp [webButtonHandler, hw, hcfg, run_reader_agent,
                  run_explainer_agent, h0, h1],
              fun hc => absurd hc ?_⟩
            simp [webButtonHandler, hw, hcfg, run_reader_agent,
              run_explainer_agent, h0, h1]
          | ok e' =>
            cases h2 : gen 2 (quizPrompt e') with
            | error e2 =>
              refine ⟨fun _ => by
                  simp [webButtonHandler, hw, hcfg, run_reader_agent,
                    run_explainer_agent, run_quiz_agent, h0, h1, h2],
                fun hc => absurd hc ?_⟩
              simp [webButtonHandler, hw, hcfg, run_reader_agent,
                run_explainer_agent, run_quiz_agent, h0, h1, h2]
            | ok q =>
              constructor
              · intro hne
                exfalso
                apply hne
                simp [webButtonHandler, hw, hcfg, run_reader_agent,
                  run_explainer_agent, run_quiz_agent, h0, h1, h2]
              · intro _
                refine ⟨r, e', q, rfl, h1, h2, ?_⟩
                simp [webButtonHandler, hw, hcfg, run_reader_agent,
                  run_explainer_agent, run_quiz_agent, h0, h1, h2]

/-- C10 witness: a run that fails at the Reader stage leaves previously
stored session results exactly as they were. -/
theorem session_update_all_or_nothing_check :
    (webButtonHandler genAllFail "x" (some "k") true
        ⟨some "oldR", some "oldE", some "oldQ"⟩).session
      = ⟨some "oldR", some "oldE", some "oldQ"⟩ :=
  (session_update_all_or_nothing genAllFail "x" (some "k") true
      ⟨some "oldR", some "oldE", some "oldQ"⟩).1 (by decide)

end StudyHelper
